import Mathlib

/-!
Verification of the search / recommendation / cache core of the library API
(src/index.js). Text is modelled as `List Char`; the PostgreSQL table as a
`List Book`; the Redis client and the external completion service as explicit
oracle parameters. Machine integers are modelled as `Int`/`Nat` (the JS numbers
involved stay far below any overflow boundary).
-/

namespace VercelLibraryApi

/-- A catalog record, with exactly the columns selected by the SQL queries in
src/index.js: `SELECT id, title, author, publisher, subject, language,
popularity, view_count FROM books`. -/
structure Book where
  id : String
  title : List Char
  author : List Char
  publisher : List Char
  subject : List Char
  language : List Char
  popularity : Int
  view_count : Int
deriving DecidableEq, Repr

/-- `startsWithL hay pat` holds when `pat` is a prefix of `hay`. -/
def startsWithL : List Char → List Char → Bool
  | _, [] => true
  | [], _ :: _ => false
  | c :: cs, p :: ps => c == p && startsWithL cs ps

/-- `containsL hay pat` holds when `pat` occurs as a contiguous substring of `hay`. -/
def containsL : List Char → List Char → Bool
  | [], pat => pat.isEmpty
  | c :: cs, pat => startsWithL (c :: cs) pat || containsL cs pat

/-- Case folding used to model SQL `ILIKE` (identity on CJK characters). -/
def lowerStr (s : List Char) : List Char := s.map Char.toLower

/-- `field ILIKE '%pat%'`: case-insensitive containment of `pat` in `field`. -/
def ilike (field pat : List Char) : Bool := containsL (lowerStr field) (lowerStr pat)

/-- Fuel-driven worker for `replaceAll`. The fuel only makes the recursion
structural; it starts at the text length and each step consumes one unit
while shortening the text, so the `0, s => s` branch is never taken. -/
def replaceAllAux (pat rep : List Char) : Nat → List Char → List Char
  | _, [] => []
  | 0, s => s
  | fuel + 1, c :: rest =>
    if startsWithL (c :: rest) pat && !pat.isEmpty then
      rep ++ replaceAllAux pat rep fuel (rest.drop (pat.length - 1))
    else
      c :: replaceAllAux pat rep fuel rest

/-- JavaScript `String.prototype.replace` with a global literal pattern:
scan left to right, replace non-overlapping occurrences, never rescanning
the replacement text. -/
def replaceAll (pat rep s : List Char) : List Char :=
  replaceAllAux pat rep s.length s

/-- JavaScript `String.prototype.trim`. -/
def trimStr (s : List Char) : List Char :=
  ((s.dropWhile Char.isWhitespace).reverse.dropWhile Char.isWhitespace).reverse

/-- The fixed traditional-to-simplified substitution table applied (in this
order) by both `handleSearch` and `searchCandidateBooks` in src/index.js. -/
def tradTable : List (List Char × List Char) :=
  [ ("小說".data, "小说".data), ("兒童".data, "儿童".data), ("數學".data, "数学".data),
    ("歷史".data, "历史".data), ("編程".data, "编程".data), ("電腦".data, "电脑".data),
    ("語言".data, "语言".data) ]

/-- The chained `.replace(...)` calls building `simplifiedTerms` /
`simplifiedQuery` in src/index.js. -/
def simplifiedTerms (s : List Char) : List Char :=
  tradTable.foldl (fun acc p => replaceAll p.1 p.2 acc) s

/-- State of the Redis client as seen from getFromCache/setCache in
src/index.js: `absent` is a null `redisClient`, `failing` is a client whose
get/setex calls reject (the catch branches), `store` is a working store.
Entry expiry timing is outside the model, so the TTL argument is not stored. -/
inductive Cache (α : Type) where
  | absent
  | failing
  | store (entries : List (List Char × α))
deriving DecidableEq, Repr

/-- `getCacheKey` from src/index.js: joins the operation name and its
parameters with `:` separators, without any escaping. -/
def getCacheKey (ty : List Char) (params : List (List Char)) : List Char :=
  "library:".data ++ ty ++ ":".data ++ List.intercalate ":".data params

/-- `getFromCache` from src/index.js: null client gives null, a rejected get
or an unparsable payload is caught and gives null, otherwise the stored value. -/
def getFromCache {α : Type} : Cache α → List Char → Option α
  | .absent, _ => none
  | .failing, _ => none
  | .store es, k => (es.find? (fun e => e.1 == k)).map (fun e => e.2)

/-- `setCache` from src/index.js: null client returns immediately, a rejected
setex is caught, otherwise the entry is written (newest entry wins on read). -/
def setCache {α : Type} (c : Cache α) (k : List Char) (v : α) (_ttl : Nat) : Cache α :=
  match c with
  | .absent => .absent
  | .failing => .failing
  | .store es => .store ((k, v) :: es)

/-- State of the PostgreSQL pool: `down` is a null `dbPool`, `failing` is a
pool whose queries reject, `up books` is a reachable `books` table. -/
inductive Db where
  | down
  | failing
  | up (books : List Book)

/-- The WHERE clause of `searchCandidateBooks` in src/index.js: the canonical
query against title/author/subject/publisher, the simplified variant against
the same four columns, or the full-text operator `to_tsvector(search_text) @@
plainto_tsquery(q)`, modelled by the oracle `fts`. -/
def matchesCandidate (fts : Book → List Char → Bool) (q sq : List Char) (b : Book) : Bool :=
  ilike b.title q || ilike b.author q || ilike b.subject q || ilike b.publisher q ||
  ilike b.title sq || ilike b.author sq || ilike b.subject sq || ilike b.publisher sq ||
  fts b q

/-- The WHERE clause of `handleSearch` in src/index.js: as in
`matchesCandidate`, except that the simplified variant is checked against
title/author/subject only (no `publisher ILIKE $3` disjunct). -/
def matchesSearch (fts : Book → List Char → Bool) (q sq : List Char) (b : Book) : Bool :=
  ilike b.title q || ilike b.author q || ilike b.subject q || ilike b.publisher q ||
  ilike b.title sq || ilike b.author sq || ilike b.subject sq ||
  fts b q

/-- The CASE expression ordering `searchCandidateBooks` rows in src/index.js. -/
def tierOf (q sq : List Char) (b : Book) : Nat :=
  if ilike b.title q then 1
  else if ilike b.title sq then 1
  else if ilike b.author q then 2
  else if ilike b.author sq then 2
  else if ilike b.subject q then 3
  else if ilike b.subject sq then 3
  else 4

/-- The ORDER BY of `searchCandidateBooks`: CASE tier ascending, then
popularity descending, then view_count descending. -/
def candLe (q sq : List Char) (a b : Book) : Bool :=
  decide (tierOf q sq a < tierOf q sq b) ||
    (tierOf q sq a == tierOf q sq b &&
      (decide (b.popularity < a.popularity) ||
        (a.popularity == b.popularity && decide (b.view_count ≤ a.view_count))))

/-- The ORDER BY of `handleSearch`: popularity descending, then view_count
descending (no tier component). -/
def searchLe (a b : Book) : Bool :=
  decide (b.popularity < a.popularity) ||
    (a.popularity == b.popularity && decide (b.view_count ≤ a.view_count))

/-- `candLe` as a decidable relation, for sorting. -/
def candLeP (q sq : List Char) : Book → Book → Prop :=
  fun a b => candLe q sq a b = true

instance (q sq : List Char) : DecidableRel (candLeP q sq) :=
  fun a b => Bool.decEq (candLe q sq a b) true

/-- `searchLe` as a decidable relation, for sorting. -/
def searchLeP : Book → Book → Prop :=
  fun a b => searchLe a b = true

instance : DecidableRel searchLeP :=
  fun a b => Bool.decEq (searchLe a b) true

/-- `searchCandidateBooks` from src/index.js: empty list when the pool is
null (explicit check) or the query rejects (catch branch); otherwise the
matching rows in tier/popularity/view_count order, limited to `limit`. -/
def searchCandidateBooks (query : List Char) (limit : Nat) (db : Db)
    (fts : Book → List Char → Bool) : List Book :=
  match db with
  | .down => []
  | .failing => []
  | .up books =>
    let simplifiedQuery := simplifiedTerms query
    (((books.filter (matchesCandidate fts query simplifiedQuery)).insertionSort
        (candLeP query simplifiedQuery)).take limit)

/-- The optional `AND language = ...` / `AND subject = ...` clauses of
`handleSearch`; `none` covers both an absent and an empty (JS-falsy) filter. -/
def filtersOk (language subject : Option (List Char)) (b : Book) : Bool :=
  (match language with | none => true | some l => b.language == l) &&
  (match subject with | none => true | some s => b.subject == s)

/-- Full row predicate of `handleSearch` (text match AND equality filters). -/
def searchPred (fts : Book → List Char → Bool) (q sq : List Char)
    (language subject : Option (List Char)) (b : Book) : Bool :=
  matchesSearch fts q sq b && filtersOk language subject b

/-- The matching rows of `handleSearch`, in its ORDER BY order, before
LIMIT/OFFSET are applied. -/
def searchRows (fts : Book → List Char → Bool) (q : List Char)
    (language subject : Option (List Char)) (books : List Book) : List Book :=
  (books.filter (searchPred fts q (simplifiedTerms q) language subject)).insertionSort searchLeP

/-- The pagination object built by `handleSearch`. -/
structure Pagination where
  page : Int
  limit : Int
  total : Int
  totalPages : Int
  hasNext : Bool
  hasPrev : Bool
deriving DecidableEq, Repr

/-- The `data` payload of a successful `handleSearch` response. -/
structure SearchOk where
  books : List Book
  pagination : Pagination
  query : List Char
  languageFilter : Option (List Char)
  subjectFilter : Option (List Char)
deriving DecidableEq, Repr

/-- Responses of `handleSearch`: 400 for a missing query, 200 with a payload,
500 from the surrounding catch block. -/
inductive SearchResponse where
  | badRequest
  | ok (r : SearchOk)
  | serverError
deriving DecidableEq, Repr

/-- Decimal rendering of an integer, as interpolated into cache keys. -/
def intStr (n : Int) : List Char := (toString n).data

/-- JS `x || ''` applied to an optional filter before it enters a cache key. -/
def optStr (o : Option (List Char)) : List Char :=
  match o with
  | none => []
  | some s => s

/-- The cache key built by `handleSearch`. -/
def searchCacheKey (q : List Char) (page limit : Int)
    (language subject : Option (List Char)) : List Char :=
  getCacheKey "search".data [q, intStr page, intStr limit, optStr language, optStr subject]

/-- `handleSearch` from src/index.js. The two SQL round trips (rows and
count) are modelled over the same `books` table; a null pool makes
`dbPool.query` throw, so both it and a rejecting pool end in the catch
block (500). -/
def handleSearch (query : List Char) (page limit : Int)
    (language subject : Option (List Char)) (db : Db)
    (fts : Book → List Char → Bool) (cache : Cache SearchOk) :
    SearchResponse × Cache SearchOk :=
  if (trimStr query).isEmpty then (.badRequest, cache)
  else
    let searchQuery := trimStr query
    let pageNum : Int := max 1 page
    let limitNum : Int := min 50 (max 1 limit)
    let offset : Int := (pageNum - 1) * limitNum
    let cacheKey := searchCacheKey searchQuery pageNum limitNum language subject
    match getFromCache cache cacheKey with
    | some r => (.ok r, cache)
    | none =>
      match db with
      | .down => (.serverError, cache)
      | .failing => (.serverError, cache)
      | .up books =>
        let rows := searchRows fts searchQuery language subject books
        let pageBooks := (rows.drop offset.toNat).take limitNum.toNat
        let total : Int :=
          (books.filter (searchPred fts searchQuery (simplifiedTerms searchQuery)
            language subject)).length
        let result : SearchOk := {
          books := pageBooks
          pagination := {
            page := pageNum
            limit := limitNum
            total := total
            totalPages := (total + limitNum - 1) / limitNum
            hasNext := decide (pageNum * limitNum < total)
            hasPrev := decide (1 < pageNum) }
          query := searchQuery
          languageFilter := language
          subjectFilter := subject }
        (.ok result, setCache cache cacheKey result 300)

/-- A recommendation object as surfaced by `getAIRecommendations`: either an
item of the parsed AI JSON, or a synthesized fallback item. -/
structure RecOut where
  id : String
  title : List Char
  author : List Char
  subject : List Char
  reason : List Char
deriving DecidableEq, Repr

/-- The value returned by `getAIRecommendations` (and cached / surfaced by
`handleRecommend`). -/
structure RecResult where
  summary : List Char
  recommendations : List RecOut
deriving DecidableEq, Repr

/-- A successfully JSON-parsed completion-service body; either field may be
missing from the parsed object. -/
structure AiParsed where
  summary : Option (List Char)
  recommendations : Option (List RecOut)
deriving DecidableEq, Repr

/-- Oracle for one round trip to the completion service: `failure` is a
thrown axios error (network failure, timeout, non-success status), `noContent`
a success without `choices[0].message.content`, `unparsable` a content string
on which `JSON.parse` throws, `parsed` a parsed JSON object. -/
inductive AiResponse where
  | failure
  | noContent
  | unparsable
  | parsed (r : AiParsed)
deriving DecidableEq, Repr

/-- JS `s || d` on a string `s`: the empty string is falsy. -/
def jsOrStr (s d : List Char) : List Char := if s.isEmpty then d else s

/-- JS `s || d` where `s` may also be undefined. -/
def jsOrOptStr (s : Option (List Char)) (d : List Char) : List Char :=
  match s with
  | none => d
  | some s => if s.isEmpty then d else s

/-- Summary used on the thrown-error path of `getAIRecommendations`. -/
def failureSummary : List Char := "为您推荐以下图书".data

/-- Rationale used on the thrown-error path of `getAIRecommendations`. -/
def failureReason : List Char := "热门推荐图书".data

/-- Summary used on the missing-content / parse-error path. -/
def defaultSummary (q : List Char) : List Char :=
  "根据您的查询\"".data ++ q ++ "\"，为您推荐以下相关图书".data

/-- Summary used on the parsed path when the AI summary is falsy. -/
def parsedDefaultSummary (q : List Char) : List Char :=
  "为您推荐以下与\"".data ++ q ++ "\"相关的图书".data

/-- Fallback recommendation synthesized on the missing-content / parse-error
path: rationale templated from the candidate's own subject. -/
def fallbackRec (b : Book) : RecOut :=
  { id := b.id, title := b.title, author := b.author, subject := b.subject,
    reason := b.subject ++ "类热门图书，适合您的需求".data }

/-- Fallback recommendation synthesized on the thrown-error path: rationale is
the fixed string `热门推荐图书`. -/
def errorRec (b : Book) : RecOut :=
  { id := b.id, title := b.title, author := b.author, subject := b.subject,
    reason := failureReason }

/-- `getAIRecommendations` from src/index.js. Prompt construction is not
modelled (the service is an oracle); the function's own control flow is:
parsed content is filtered against the candidate ids and truncated, a
missing/unparsable content falls through to the subject-templated default,
and a thrown request error is caught by the outer catch. -/
def getAIRecommendations (userQuery : List Char) (candidateBooks : List Book)
    (limit : Nat) (ai : AiResponse) : RecResult :=
  match ai with
  | .failure =>
    { summary := failureSummary
      recommendations := (candidateBooks.take limit).map errorRec }
  | .noContent =>
    { summary := defaultSummary userQuery
      recommendations := (candidateBooks.take limit).map fallbackRec }
  | .unparsable =>
    { summary := defaultSummary userQuery
      recommendations := (candidateBooks.take limit).map fallbackRec }
  | .parsed r =>
    let validRecommendations : List RecOut :=
      match r.recommendations with
      | none => []
      | some recs => recs.filter (fun itm => candidateBooks.any (fun b => b.id == itm.id))
    { summary := jsOrOptStr r.summary (parsedDefaultSummary userQuery)
      recommendations := validRecommendations.take limit }

/-- Responses of `handleRecommend`: 400 for a missing query, otherwise 200
with a summary and a recommendation list. -/
inductive RecResponse where
  | badRequest
  | ok (r : RecResult)
deriving DecidableEq, Repr

/-- The fixed summary returned by `handleRecommend` when no candidate books
were found. -/
def noResultsSummary : List Char :=
  "抱歉，我们的图书馆中没有找到与您查询相关的书籍".data

/-- The cache key built by `handleRecommend`. -/
def recommendCacheKey (q : List Char) (limit : Int) : List Char :=
  getCacheKey "recommend".data [q, intStr limit]

/-- `handleRecommend` from src/index.js (POST body already routed). The
`|| candidateBooks.slice(...)` default on line 510 is unreachable because
`getAIRecommendations` always returns an array, so the surfaced
recommendations are exactly `air.recommendations`; the summary keeps its
JS-falsy default. -/
def handleRecommend (query : List Char) (limit : Int) (db : Db)
    (fts : Book → List Char → Bool) (cache : Cache RecResult) (ai : AiResponse) :
    RecResponse × Cache RecResult :=
  if (trimStr query).isEmpty then (.badRequest, cache)
  else
    let searchQuery := trimStr query
    let limitNum : Int := min 20 (max 1 limit)
    let cacheKey := recommendCacheKey searchQuery limitNum
    match getFromCache cache cacheKey with
    | some r => (.ok r, cache)
    | none =>
      let candidateBooks := searchCandidateBooks searchQuery (limitNum.toNat * 3) db fts
      if candidateBooks.isEmpty then
        let result : RecResult := { summary := noResultsSummary, recommendations := [] }
        (.ok result, setCache cache cacheKey result 300)
      else
        let air := getAIRecommendations searchQuery candidateBooks limitNum.toNat ai
        let result : RecResult :=
          { summary := jsOrStr air.summary
              ("根据您的查询\"".data ++ searchQuery ++ "\"，为您推荐以下图书".data)
            recommendations := air.recommendations }
        (.ok result, setCache cache cacheKey result 600)

/-- The four text fields named by the spec's retrieval predicate. -/
def specFields (b : Book) : List (List Char) :=
  [b.title, b.author, b.subject, b.publisher]

/-- Spec wording of claim C4 (for comparison with the code's predicate): any
of the four fields contains the canonical query, OR any of the four fields
contains the variant, OR the full-text operator accepts the canonical query;
equality filters are an additional AND constraint. -/
def specSearchMatches (fts : Book → List Char → Bool) (q sq : List Char)
    (language subject : Option (List Char)) (b : Book) : Bool :=
  ((specFields b).any (fun f => ilike f q) ||
   (specFields b).any (fun f => ilike f sq) ||
   fts b q) && filtersOk language subject b

/-- The three fields the search endpoint actually checks against the variant. -/
def specVariantFields (b : Book) : List (List Char) :=
  [b.title, b.author, b.subject]

/-- Amended spec wording of C4 for the search endpoint: the variant is only
checked against title/author/subject. -/
def specSearchMatchesAmended (fts : Book → List Char → Bool) (q sq : List Char)
    (language subject : Option (List Char)) (b : Book) : Bool :=
  ((specFields b).any (fun f => ilike f q) ||
   (specVariantFields b).any (fun f => ilike f sq) ||
   fts b q) && filtersOk language subject b

/-- Spec wording of the recommendation-path candidate predicate (all four
fields for both canonical and variant, plus full text). -/
def specCandidateMatches (fts : Book → List Char → Bool) (q sq : List Char) (b : Book) : Bool :=
  (specFields b).any (fun f => ilike f q) ||
  (specFields b).any (fun f => ilike f sq) ||
  fts b q

/-- Spec wording of claim C5's tier rule: the tiers a record qualifies for
(title 1, author 2, subject 3, always 4 as the residual tier). -/
def qualifyingTiers (q sq : List Char) (b : Book) : List Nat :=
  (if ilike b.title q || ilike b.title sq then [1] else []) ++
  (if ilike b.author q || ilike b.author sq then [2] else []) ++
  (if ilike b.subject q || ilike b.subject sq then [3] else []) ++ [4]

/-- Spec wording of claim C5: a record's tier is the best (lowest-numbered)
tier it qualifies for. -/
def tierSpec (q sq : List Char) (b : Book) : Nat :=
  (qualifyingTiers q sq b).foldl min 4

/-- The book list of a search response (empty for non-200 responses). -/
def responseBooks : SearchResponse → List Book
  | .ok r => r.books
  | _ => []

theorem replaceAllAux_of_not_contains (pat rep : List Char) :
    ∀ (fuel : Nat) (s : List Char), containsL s pat = false →
      replaceAllAux pat rep fuel s = s := by
  intro fuel
  induction fuel with
  | zero =>
    intro s _
    cases s <;> rfl
  | succ n ih =>
    intro s h
    cases s with
    | nil => rfl
    | cons c cs =>
      simp only [containsL, Bool.or_eq_false_iff] at h
      simp [replaceAllAux, h.1, ih cs h.2]

theorem replaceAll_of_not_contains (pat rep s : List Char)
    (h : containsL s pat = false) : replaceAll pat rep s = s :=
  replaceAllAux_of_not_contains pat rep s.length s h

theorem simplifiedTerms_eq_self (s : List Char)
    (h : ∀ p ∈ tradTable, containsL s p.1 = false) : simplifiedTerms s = s := by
  have aux : ∀ (ps : List (List Char × List Char)), (∀ p ∈ ps, containsL s p.1 = false) →
      ps.foldl (fun acc p => replaceAll p.1 p.2 acc) s = s := by
    intro ps
    induction ps with
    | nil => intro _; rfl
    | cons p ps ih =>
      intro hp
      simp only [List.foldl_cons]
      rw [replaceAll_of_not_contains p.1 p.2 s (hp p (List.mem_cons_self p ps))]
      exact ih (fun r hr => hp r (List.mem_cons_of_mem p hr))
  exact aux tradTable h

theorem candLe_trans (q sq : List Char) (a b c : Book)
    (h1 : candLe q sq a b) (h2 : candLe q sq b c) : candLe q sq a c := by
  simp only [candLe, Bool.or_eq_true, Bool.and_eq_true, decide_eq_true_eq,
    beq_iff_eq] at h1 h2 ⊢
  omega

theorem candLe_total (q sq : List Char) (a b : Book) :
    candLe q sq a b || candLe q sq b a := by
  simp only [candLe, Bool.or_eq_true, Bool.and_eq_true, decide_eq_true_eq,
    beq_iff_eq]
  omega

theorem searchLe_trans (a b c : Book) (h1 : searchLe a b) (h2 : searchLe b c) :
    searchLe a c := by
  simp only [searchLe, Bool.or_eq_true, Bool.and_eq_true, decide_eq_true_eq,
    beq_iff_eq] at h1 h2 ⊢
  omega

theorem searchLe_total (a b : Book) : searchLe a b || searchLe b a := by
  simp only [searchLe, Bool.or_eq_true, Bool.and_eq_true, decide_eq_true_eq,
    beq_iff_eq]
  omega

theorem candLeP_isTotal (q sq : List Char) : IsTotal Book (candLeP q sq) := by
  constructor
  intro a b
  have h := candLe_total q sq a b
  simp only [Bool.or_eq_true] at h
  exact h

theorem candLeP_isTrans (q sq : List Char) : IsTrans Book (candLeP q sq) := by
  constructor
  intro a b c h1 h2
  exact candLe_trans q sq a b c h1 h2

theorem searchLeP_isTotal : IsTotal Book searchLeP := by
  constructor
  intro a b
  have h := searchLe_total a b
  simp only [Bool.or_eq_true] at h
  exact h

theorem searchLeP_isTrans : IsTrans Book searchLeP := by
  constructor
  intro a b c h1 h2
  exact searchLe_trans a b c h1 h2

theorem searchCandidateBooks_sorted (q : List Char) (lim : Nat) (db : Db)
    (fts : Book → List Char → Bool) :
    (searchCandidateBooks q lim db fts).Pairwise (candLeP q (simplifiedTerms q)) := by
  haveI := candLeP_isTotal q (simplifiedTerms q)
  haveI := candLeP_isTrans q (simplifiedTerms q)
  match db with
  | .down => simp [searchCandidateBooks]
  | .failing => simp [searchCandidateBooks]
  | .up books =>
    unfold searchCandidateBooks
    refine List.Pairwise.sublist (List.take_sublist _ _) ?_
    exact List.sorted_insertionSort (candLeP q (simplifiedTerms q)) _

theorem searchRows_sorted (fts : Book → List Char → Bool) (q : List Char)
    (language subject : Option (List Char)) (books : List Book) :
    (searchRows fts q language subject books).Pairwise searchLeP := by
  haveI := searchLeP_isTotal
  haveI := searchLeP_isTrans
  unfold searchRows
  exact List.sorted_insertionSort searchLeP _

theorem tierOf_eq_tierSpec (q sq : List Char) (b : Book) :
    tierOf q sq b = tierSpec q sq b := by
  unfold tierOf tierSpec qualifyingTiers
  generalize ilike b.title q = t1
  generalize ilike b.title sq = t2
  generalize ilike b.author q = a1
  generalize ilike b.author sq = a2
  generalize ilike b.subject q = s1
  generalize ilike b.subject sq = s2
  revert t1 t2 a1 a2 s1 s2
  decide

theorem mapped_take_ids_ok (cands : List Book) (lim : Nat) (f : Book → RecOut)
    (hf : ∀ b, (f b).id = b.id) :
    (((cands.take lim).map f).all (fun r => cands.any (fun b => b.id == r.id))) = true ∧
    ((cands.take lim).map f).length ≤ lim := by
  constructor
  · simp only [List.all_eq_true]
    intro r hr
    obtain ⟨b, hb, rfl⟩ := List.mem_map.mp hr
    simp only [List.any_eq_true]
    exact ⟨b, List.mem_of_mem_take hb, by simp [hf]⟩
  · simp only [List.length_map, List.length_take]
    omega

/-- Claim C1: for every call of the Recommendation Orchestrator
(`getAIRecommendations`) and every completion-service behaviour — a thrown
request error, a missing body, malformed JSON, or valid JSON referencing ids
outside the pool — every id in the returned recommendations list is the id of
a member of the candidate list passed in for that call, and the list is
truncated to `limit`. -/
theorem recommend_ids_within_candidates (q : List Char) (cands : List Book)
    (lim : Nat) (ai : AiResponse) :
    ((getAIRecommendations q cands lim ai).recommendations.all
      (fun r => cands.any (fun b => b.id == r.id))) = true ∧
    (getAIRecommendations q cands lim ai).recommendations.length ≤ lim := by
  cases ai with
  | failure => exact mapped_take_ids_ok cands lim errorRec (fun b => rfl)
  | noContent => exact mapped_take_ids_ok cands lim fallbackRec (fun b => rfl)
  | unparsable => exact mapped_take_ids_ok cands lim fallbackRec (fun b => rfl)
  | parsed r =>
    cases hrec : r.recommendations with
    | none =>
      exact ⟨by simp [getAIRecommendations, hrec], by simp [getAIRecommendations, hrec]⟩
    | some recs =>
      constructor
      · simp only [getAIRecommendations, hrec, List.all_eq_true]
        intro x hx
        have hx2 : x ∈ recs.filter (fun itm => cands.any (fun b => b.id == itm.id)) :=
          List.mem_of_mem_take hx
        have hx3 := List.of_mem_filter hx2
        exact hx3
      · simp only [getAIRecommendations, hrec]
        exact List.length_take_le lim _

/-- Candidate book used in concrete counterexamples. -/
def bookA : Book :=
  { id := "1", title := "t".data, author := "a".data, publisher := "p".data,
    subject := "s".data, language := "chi".data, popularity := 1, view_count := 1 }

/-- An adversarial, well-formed completion-service reply whose only
recommendation references an id outside the candidate pool. -/
def aiUnknownId : AiResponse :=
  .parsed { summary := some "ok".data,
            recommendations := some [{ id := "zzz", title := [], author := [],
                                       subject := [], reason := [] }] }

/-- Claim C2 counterexample: with one candidate and a parseable reply whose
post-validation list is empty, the Orchestrator surfaces zero recommendations
instead of falling back to the first `limit` candidates; moreover, on the
thrown-request-error path the synthesized rationale is the fixed string
`热门推荐图书`, not a template built from the candidate's subject field. -/
theorem recommend_fallback_counterexample :
    (getAIRecommendations "q".data [bookA] 5 aiUnknownId).recommendations = [] ∧
    ([bookA] : List Book) ≠ [] ∧
    (getAIRecommendations "q".data [bookA] 5 .failure).recommendations.map
      (fun r => r.reason) = [failureReason] ∧
    failureReason ≠ bookA.subject ++ "类热门图书，适合您的需求".data := by
  decide

/-- Claim C2 as amended: on an `UpstreamUnavailable` failure — a thrown
request error, a reply without message content, or an unparsable body — the
Orchestrator falls back deterministically to the first `limit` candidates in
their existing order, one synthesized recommendation per candidate; the
rationale is templated from the candidate's own subject on the
missing-content and unparsable paths, and is the fixed generic string on the
thrown-error path. (A parseable reply whose validated list is empty yields an
empty list, not the fallback; no external call is retried.) -/
theorem recommend_fallback_amended (q : List Char) (cands : List Book) (lim : Nat) :
    (getAIRecommendations q cands lim .failure).recommendations
      = (cands.take lim).map errorRec ∧
    (getAIRecommendations q cands lim .noContent).recommendations
      = (cands.take lim).map fallbackRec ∧
    (getAIRecommendations q cands lim .unparsable).recommendations
      = (cands.take lim).map fallbackRec ∧
    (getAIRecommendations q cands lim .failure).recommendations.map (fun r => r.id)
      = (cands.take lim).map Book.id ∧
    (getAIRecommendations q cands lim .noContent).recommendations.map (fun r => r.reason)
      = (cands.take lim).map (fun b => b.subject ++ "类热门图书，适合您的需求".data) := by
  refine ⟨rfl, rfl, rfl, ?_, ?_⟩ <;>
    simp [getAIRecommendations, errorRec, fallbackRec, List.map_map, Function.comp_def]

/-- Claim C3: a recommend call whose retrieved candidate set is empty returns
the fixed no-results summary with an empty recommendation list, and its result
does not depend on the completion-service oracle (no external call is made). -/
theorem recommend_empty_candidates (q : List Char) (limit : Int) (db : Db)
    (fts : Book → List Char → Bool) (cache : Cache RecResult) (ai ai2 : AiResponse)
    (hq : (trimStr q).isEmpty = false)
    (hmiss : getFromCache cache (recommendCacheKey (trimStr q) (min 20 (max 1 limit))) = none)
    (hcand : searchCandidateBooks (trimStr q) ((min 20 (max 1 limit)).toNat * 3) db fts = []) :
    handleRecommend q limit db fts cache ai =
      (.ok { summary := noResultsSummary, recommendations := [] },
        setCache cache (recommendCacheKey (trimStr q) (min 20 (max 1 limit)))
          { summary := noResultsSummary, recommendations := [] } 300) ∧
    handleRecommend q limit db fts cache ai = handleRecommend q limit db fts cache ai2 := by
  have h1 : ∀ a : AiResponse, handleRecommend q limit db fts cache a =
      (.ok { summary := noResultsSummary, recommendations := [] },
        setCache cache (recommendCacheKey (trimStr q) (min 20 (max 1 limit)))
          { summary := noResultsSummary, recommendations := [] } 300) := by
    intro a
    unfold handleRecommend
    simp [hq, hmiss, hcand]
  exact ⟨h1 ai, (h1 ai).trans (h1 ai2).symm⟩

/-- Witness for claim C3 at a concrete input. -/
theorem recommend_empty_candidates_witness :
    handleRecommend "a".data 10 (.up []) (fun _ _ => false) .absent .failure =
      (.ok { summary := noResultsSummary, recommendations := [] },
        setCache .absent (recommendCacheKey (trimStr "a".data) (min 20 (max 1 10)))
          { summary := noResultsSummary, recommendations := [] } 300) ∧
    handleRecommend "a".data 10 (.up []) (fun _ _ => false) .absent .failure =
      handleRecommend "a".data 10 (.up []) (fun _ _ => false) .absent
        (.parsed { summary := none, recommendations := none }) :=
  recommend_empty_candidates "a".data 10 (.up []) (fun _ _ => false) .absent .failure
    (.parsed { summary := none, recommendations := none })
    (by decide) (by decide) (by decide)

/-- The constantly-false full-text oracle, used in concrete scenarios. -/
def fts0 : Book → List Char → Bool := fun _ _ => false

/-- A record whose only match for the query `小說` is its publisher containing
the script-normalized variant `小说`. -/
def bookP : Book :=
  { id := "p1", title := "x".data, author := "y".data, publisher := "小说出版社".data,
    subject := "z".data, language := "chi".data, popularity := 0, view_count := 0 }

/-- Claim C4 counterexample: a record whose publisher contains the
script-normalized variant (but no field contains the canonical query) matches
the spec's four-field predicate, yet the search endpoint's SQL predicate
rejects it — `handleSearch` has no `publisher ILIKE variant` disjunct. -/
theorem search_predicate_counterexample :
    specSearchMatches fts0 "小說".data (simplifiedTerms "小說".data) none none bookP = true ∧
    searchPred fts0 "小說".data (simplifiedTerms "小說".data) none none bookP = false := by
  decide

/-- Claim C4 as amended: in the search endpoint a record matches iff any of
{title, author, subject, publisher} case-insensitively contains the canonical
query, OR any of {title, author, subject} (not publisher) contains the
script-normalized variant, OR the full-text operator accepts the canonical
query; language and subject equality filters are an additional AND
constraint. The recommendation-path candidate predicate does check all four
fields against the variant as the spec states. -/
theorem search_predicate_amended (fts : Book → List Char → Bool) (q sq : List Char)
    (language subject : Option (List Char)) (b : Book) :
    searchPred fts q sq language subject b =
      specSearchMatchesAmended fts q sq language subject b ∧
    matchesCandidate fts q sq b = specCandidateMatches fts q sq b := by
  constructor <;>
    simp [searchPred, matchesSearch, matchesCandidate, specSearchMatchesAmended,
      specCandidateMatches, specFields, specVariantFields, Bool.or_assoc]

/-- A record matching the query `历史` only on its title, with low popularity. -/
def bookT : Book :=
  { id := "t1", title := "历史故事".data, author := "aa".data, publisher := "pp".data,
    subject := "xx".data, language := "chi".data, popularity := 1, view_count := 0 }

/-- A record matching the query `历史` only on its subject, with high popularity. -/
def bookS : Book :=
  { id := "s1", title := "bb".data, author := "cc".data, publisher := "qq".data,
    subject := "历史".data, language := "chi".data, popularity := 5, view_count := 0 }

/-- Claim C5 counterexample: the search endpoint returns a subject-only match
(tier 3) before a title match (tier 1) because its ORDER BY has no tier
component, only popularity/view_count. -/
theorem search_order_counterexample :
    responseBooks
      (handleSearch "历史".data 1 20 none none (.up [bookT, bookS]) fts0 .absent).1 =
      [bookS, bookT] ∧
    tierOf "历史".data (simplifiedTerms "历史".data) bookT = 1 ∧
    tierOf "历史".data (simplifiedTerms "历史".data) bookS = 3 := by
  decide

/-- Claim C5 as amended: the tier ordering (title 1, author 2, subject 3,
full-text/other 4, a record taking the best tier it qualifies for, then
descending popularity, then descending view counter) governs the
recommendation-path candidate retrieval `searchCandidateBooks`; the search
endpoint's row order is only descending popularity then descending view
counter. -/
theorem candidate_ranking_amended (q : List Char) (lim : Nat) (db : Db)
    (fts fts2 : Book → List Char → Bool) (language subject : Option (List Char))
    (books : List Book) (b : Book) :
    (searchCandidateBooks q lim db fts).Pairwise (candLeP q (simplifiedTerms q)) ∧
    tierOf q (simplifiedTerms q) b = tierSpec q (simplifiedTerms q) b ∧
    (searchRows fts2 q language subject books).Pairwise searchLeP :=
  ⟨searchCandidateBooks_sorted q lim db fts,
   tierOf_eq_tierSpec q (simplifiedTerms q) b,
   searchRows_sorted fts2 q language subject books⟩

/-- Claim C6: page and pageSize are clamped before use (page below 1 becomes
1, pageSize above 50 becomes 50, pageSize below 1 becomes 1), and the
pagination fields hasNext and hasPrev derive arithmetically from page,
pageSize and total. -/
theorem search_clamp (q : List Char) (page limit : Int)
    (language subject : Option (List Char)) (books : List Book)
    (fts : Book → List Char → Bool)
    (hq : (trimStr q).isEmpty = false) :
    ∃ r : SearchOk,
      handleSearch q page limit language subject (.up books) fts .absent =
        (.ok r, .absent) ∧
      r.pagination.page = max 1 page ∧
      1 ≤ r.pagination.page ∧
      r.pagination.limit = min 50 (max 1 limit) ∧
      1 ≤ r.pagination.limit ∧ r.pagination.limit ≤ 50 ∧
      r.pagination.hasNext =
        decide (max 1 page * min 50 (max 1 limit) < r.pagination.total) ∧
      r.pagination.hasPrev = decide (1 < max 1 page) := by
  unfold handleSearch
  simp only [hq, Bool.false_eq_true, if_false, getFromCache, setCache]
  refine ⟨_, rfl, rfl, ?_, rfl, ?_, ?_, rfl, rfl⟩
  · show (1 : Int) ≤ max 1 page
    omega
  · show (1 : Int) ≤ min 50 (max 1 limit)
    omega
  · show (min 50 (max 1 limit) : Int) ≤ 50
    omega

/-- Witness for claim C6 at a concrete input with page below 1 and pageSize
above the maximum. -/
theorem search_clamp_witness :
    ∃ r : SearchOk,
      handleSearch "a".data (-7) 99 none none (.up []) fts0 .absent =
        (.ok r, .absent) ∧
      r.pagination.page = max 1 (-7) ∧
      1 ≤ r.pagination.page ∧
      r.pagination.limit = min 50 (max 1 99) ∧
      1 ≤ r.pagination.limit ∧ r.pagination.limit ≤ 50 ∧
      r.pagination.hasNext =
        decide (max 1 (-7) * min 50 (max 1 99) < r.pagination.total) ∧
      r.pagination.hasPrev = decide (1 < max 1 (-7)) :=
  search_clamp "a".data (-7) 99 none none [] fts0 (by decide)

/-- Claim C7 counterexample: a /search request with the catalog store
unavailable is answered with the 500-style error response, not with a
success response carrying an empty candidate set. -/
theorem search_unavailable_counterexample :
    handleSearch "a".data 1 20 none none .down fts0 .absent =
      (.serverError, .absent) := by
  decide

/-- Claim C7 as amended: the recommendation-path candidate retriever
`searchCandidateBooks` returns an empty list (never an error) when the
catalog store is unavailable, when its query fails, and when it matches zero
rows; the /search endpoint, by contrast, surfaces store unavailability and
query failure as a 500-style error response. -/
theorem retriever_empty_amended (q : List Char) (lim : Nat)
    (fts : Book → List Char → Bool) (books : List Book)
    (page limit : Int) (language subject : Option (List Char)) (cache : Cache SearchOk)
    (hq : (trimStr q).isEmpty = false)
    (hmiss : getFromCache cache
      (searchCacheKey (trimStr q) (max 1 page) (min 50 (max 1 limit))
        language subject) = none) :
    searchCandidateBooks q lim .down fts = [] ∧
    searchCandidateBooks q lim .failing fts = [] ∧
    (books.filter (matchesCandidate fts q (simplifiedTerms q)) = [] →
      searchCandidateBooks q lim (.up books) fts = []) ∧
    (handleSearch q page limit language subject .down fts cache).1 = .serverError ∧
    (handleSearch q page limit language subject .failing fts cache).1 = .serverError := by
  refine ⟨rfl, rfl, ?_, ?_, ?_⟩
  · intro hf
    unfold searchCandidateBooks
    simp [hf]
  · unfold handleSearch
    simp [hq, hmiss]
  · unfold handleSearch
    simp [hq, hmiss]

/-- Witness for claim C7 (amended) at a concrete input. -/
theorem retriever_empty_amended_witness :
    searchCandidateBooks "a".data 30 .down fts0 = [] ∧
    searchCandidateBooks "a".data 30 .failing fts0 = [] ∧
    (List.filter (matchesCandidate fts0 "a".data (simplifiedTerms "a".data)) [] = [] →
      searchCandidateBooks "a".data 30 (.up []) fts0 = []) ∧
    (handleSearch "a".data 1 20 none none .down fts0 .absent).1 = .serverError ∧
    (handleSearch "a".data 1 20 none none .failing fts0 .absent).1 = .serverError :=
  retriever_empty_amended "a".data 30 fts0 [] 1 20 none none .absent
    (by decide) (by decide)

/-- Claim C8: when the cache store is absent or failing, reads always miss,
writes are no-ops, every operation returns exactly the result it would
compute with no cache at all (`absent` is by definition the always-miss,
recompute-everything configuration), and no cache-layer error reaches the
caller — the failing-cache run of each handler produces the same response as
the cacheless run. -/
theorem cache_degradation (α : Type) (k : List Char) (v : α) (ttl : Nat)
    (q : List Char) (page limit : Int) (language subject : Option (List Char))
    (db : Db) (fts : Book → List Char → Bool)
    (q2 : List Char) (limit2 : Int) (ai : AiResponse) :
    getFromCache (Cache.absent : Cache α) k = none ∧
    getFromCache (Cache.failing : Cache α) k = none ∧
    setCache (Cache.absent : Cache α) k v ttl = Cache.absent ∧
    setCache (Cache.failing : Cache α) k v ttl = Cache.failing ∧
    (handleSearch q page limit language subject db fts .failing).1 =
      (handleSearch q page limit language subject db fts .absent).1 ∧
    (handleSearch q page limit language subject db fts .failing).2 = .failing ∧
    (handleRecommend q2 limit2 db fts .failing ai).1 =
      (handleRecommend q2 limit2 db fts .absent ai).1 ∧
    (handleRecommend q2 limit2 db fts .failing ai).2 = .failing := by
  refine ⟨rfl, rfl, rfl, rfl, ?_, ?_, ?_, ?_⟩
  · unfold handleSearch
    cases htr : (trimStr q).isEmpty <;> cases db <;>
      simp [htr, getFromCache, setCache]
  · unfold handleSearch
    cases htr : (trimStr q).isEmpty <;> cases db <;>
      simp [htr, getFromCache, setCache]
  · unfold handleRecommend
    cases htr : (trimStr q2).isEmpty with
    | true => simp [htr]
    | false =>
      simp only [htr, Bool.false_eq_true, if_false, getFromCache]
      split <;> rfl
  · unfold handleRecommend
    cases htr : (trimStr q2).isEmpty with
    | true => simp [htr]
    | false =>
      simp only [htr, Bool.false_eq_true, if_false, getFromCache]
      split <;> rfl

/-- The single catalog record of the C9 concrete scenario: simplified-script
subject `小说`, no traditional-script text in any field. -/
def c9Book : Book :=
  { id := "b1", title := "t".data, author := "a".data, publisher := "p".data,
    subject := "小说".data, language := "chi".data, popularity := 0, view_count := 0 }

/-- Claim C9: the script-normalized variant applies the fixed
traditional-to-simplified substitution table to the query, and equals the
query when no substitution applies; concretely, `小說` normalizes to `小说`,
and a catalog whose one record has subject `小说` (which the canonical query
does not match) is matched and returned for the query `小說`. -/
theorem script_normalization (q : List Char)
    (h : ∀ p ∈ tradTable, containsL q p.1 = false) :
    simplifiedTerms q = q ∧
    simplifiedTerms "小說".data = "小说".data ∧
    ilike c9Book.subject "小說".data = false ∧
    searchCandidateBooks "小說".data 30 (.up [c9Book]) fts0 = [c9Book] :=
  ⟨simplifiedTerms_eq_self q h, by decide, by decide, by decide⟩

/-- Witness for claim C9: the already-simplified query `数学` contains no
entry of the substitution table and is left unchanged. -/
theorem script_normalization_witness :
    (∀ p ∈ tradTable, containsL "数学".data p.1 = false) ∧
    (simplifiedTerms "数学".data = "数学".data ∧
     simplifiedTerms "小說".data = "小说".data ∧
     ilike c9Book.subject "小說".data = false ∧
     searchCandidateBooks "小說".data 30 (.up [c9Book]) fts0 = [c9Book]) :=
  ⟨by decide, script_normalization "数学".data (by decide)⟩

/-- Claim C10: the cache-key fingerprint is not injective. Two distinct
parameter lists collide under `getCacheKey`, and two distinct /search
requests — one whose query string contains `:` — produce the same search
cache key, so they read each other's cached results. -/
theorem cache_key_collision :
    getCacheKey "search".data ["a:b".data, "1".data] =
      getCacheKey "search".data ["a".data, "b:1".data] ∧
    (["a:b".data, "1".data] : List (List Char)) ≠ ["a".data, "b:1".data] ∧
    searchCacheKey "a:1".data 20 5 none none =
      searchCacheKey "a".data 1 20 (some "5:".data) none ∧
    (("a:1".data, (20 : Int), (5 : Int), (none : Option (List Char))) ≠
      ("a".data, (1 : Int), (20 : Int), some "5:".data)) := by
  decide

end VercelLibraryApi
